import Mathlib

/-!
Shallow embedding of the docker client's run orchestration
(`api/client/run.go`, given as `src/unnamed/part_000`) and the Windows
libcontainerd backspace relay (`src/libcontainerd/process_windows.go`).

Pure helpers mirror Go's `strings` package; the orchestration `CmdRun`
is embedded as a function from an immutable request plus a daemon oracle
(the outcomes of the external create/attach/start/wait/inspect calls) to
the ordered trace of external calls it issues and the `error` value it
returns.
-/

namespace Docker

/-- Mirrors Go `strings.HasPrefix` on the character lists of the two
strings: `listHasPre pre s` is true when `pre` is a prefix of `s`. -/
def listHasPre : List Char → List Char → Bool
  | [], _ => true
  | _ :: _, [] => false
  | a :: as, b :: bs => a == b && listHasPre as bs

/-- Mirrors Go `strings.Contains`: `listContainsSub s sub` is true when
`sub` occurs as a contiguous substring of `s`. -/
def listContainsSub : List Char → List Char → Bool
  | [], sub => listHasPre sub []
  | c :: rest, sub => listHasPre sub (c :: rest) || listContainsSub rest sub

/-- Go `strings.HasPrefix` lifted to `String`. -/
def strStartsWith (s pre : String) : Bool := listHasPre pre.data s.data

/-- Go `strings.Contains` lifted to `String`. -/
def strContains (s sub : String) : Bool := listContainsSub s.data sub.data

/-- Go `strings.TrimPrefix`: drops `pre` from the front of `s` when it is
a prefix, otherwise returns `s` unchanged. -/
def strTrimPre (s pre : String) : String :=
  if listHasPre pre.data s.data then String.mk (s.data.drop pre.data.length) else s

/-- `errCmdNotFound` from run.go line 24. -/
def errCmdNotFound : String := "not found or does not exist"

/-- `errCmdCouldNotBeInvoked` from run.go line 25. -/
def errCmdCouldNotBeInvoked : String := "could not be invoked"

/-- `runStartContainerErr` (run.go lines 51-63): classifies a create/start
failure message into the status code of the returned `Cli.StatusError`.
The daemon envelope prefix is stripped first; `"Container command"` must
be a prefix of the trimmed message, and the two documented phrases are
matched as substrings. -/
def runStartContainerErr (msg : String) : Int :=
  let trimmedErr := strTrimPre msg "Error response from daemon: "
  if strStartsWith trimmedErr "Container command" then
    if strContains trimmedErr errCmdNotFound then 127
    else if strContains trimmedErr errCmdCouldNotBeInvoked then 126
    else 125
  else 125

/-! ### Backspace relay (process_windows.go) -/

/-- The byte remapping inside `delToBsWriter.Write` (process_windows.go
lines 45-58): DEL (`0x7f`) becomes BACKSPACE (`0x8`), every other byte is
unchanged. -/
def delToBs (c : Nat) : Nat := if c = 0x7f then 0x8 else c

/-- A writer is modelled as a pure function from the byte buffer it is
handed to the `(count, error)` pair it reports. -/
def Writer : Type := List Nat → Nat × Option String

/-- `delToBsWriter.Write`: builds a fresh buffer `bc` of the input's
length with DEL remapped to BACKSPACE and hands `bc` (not the caller's
slice) to the underlying writer, returning that writer's result. -/
def delToBsWrite (w : Writer) (b : List Nat) : Nat × Option String :=
  w (b.map delToBs)

/-- `fixStdinBackspaceBehavior` (process_windows.go lines 34-39): wraps
`w` in the DEL-to-BS filter only for tty sessions on Windows builds
before 14350; otherwise returns `w` itself. -/
def fixStdinBackspaceBehavior (w : Writer) (tty : Bool) (build : Nat) : Writer :=
  if !tty || decide (14350 ≤ build) then w else delToBsWrite w

/-! ### CID file (run.go lines 28-46)

The filesystem is a map from path to file content; the `cidFile` carries
its path and the `written` flag.  The outcomes of the underlying
`file.Write` and `os.Remove` system calls are oracle arguments
(`none` = success, `some msg` = the reported failure). -/

structure CidFile where
  path : String
  written : Bool
deriving DecidableEq

def FS : Type := String → Option String

inductive CidErr
  | writeFailed (msg : String)
  | removeFailed (path msg : String)
deriving DecidableEq

/-- `cidFile.Write` (run.go lines 40-46): writes the id's bytes through
the handle; on failure returns a wrapped error and leaves `written`
untouched, on success appends the bytes to the file and sets `written`. -/
def cidWrite (fs : FS) (c : CidFile) (id : String) (wr : Option String) :
    FS × CidFile × Option CidErr :=
  match wr with
  | some e => (fs, c, some (.writeFailed e))
  | none =>
      (fun p => if p = c.path then (fs p).map (fun s => s ++ id) else fs p,
       { c with written := true }, none)

/-- `cidFile.Close` (run.go lines 28-38): closes the handle, and deletes
the backing path only when the file was never written; a deletion failure
is returned as a wrapped remove error and leaves the filesystem as the
failed `os.Remove` left it. -/
def cidClose (fs : FS) (c : CidFile) (rm : Option String) : FS × Option CidErr :=
  if !c.written then
    match rm with
    | some e => (fs, some (.removeFailed c.path e))
    | none => ((fun p => if p = c.path then none else fs p), none)
  else (fs, none)

/-! ### The run orchestration (`CmdRun`, run.go lines 68-301)

The request is the post-parse state: the container `Config`, the
`HostConfig` restart policy, and the non-config flags.  The daemon oracle
fixes the outcome of every external call.  `cmdRun` returns the ordered
trace of externally visible actions together with the `error` value the
Go function returns (`none` = nil). -/

structure Config where
  attachStdin : Bool
  attachStdout : Bool
  attachStderr : Bool
  tty : Bool
  stdinOnce : Bool
  image : String
deriving DecidableEq

structure RestartPolicy where
  name : String
deriving DecidableEq

/-- `RestartPolicy.IsAlways` from engine-api. -/
def RestartPolicy.isAlways (p : RestartPolicy) : Bool := p.name == "always"

/-- `RestartPolicy.IsOnFailure` from engine-api. -/
def RestartPolicy.isOnFailure (p : RestartPolicy) : Bool := p.name == "on-failure"

structure HostConfig where
  restartPolicy : RestartPolicy
deriving DecidableEq

/-- The non-config flags of `CmdRun`: `--rm`, `-d`, `--sig-proxy`, and the
length of the explicit `-a` attach list. -/
structure Flags where
  autoRemove : Bool
  detach : Bool
  sigProxy : Bool
  attachLen : Nat
deriving DecidableEq

structure CliState where
  isTerminalOut : Bool
deriving DecidableEq

/-- Outcome of `cli.client.ContainerAttach`: nil, the distinguished
`httputil.ErrPersistEOF`, or any other transport error. -/
inductive AttachError
  | persistEOF
  | transport (msg : String)
deriving DecidableEq

/-- Outcome of the attach session's stream-copy loop: it finished
cleanly, the connection was found closed after all requested data had
been exchanged, or some other transport failure occurred. -/
inductive HijackResult
  | clean
  | closedAfterDone
  | failed (msg : String)
deriving DecidableEq

/-- The oracle fixing the outcome of every external call `CmdRun`
issues: `cli.CheckTtyInput`, `cli.createContainer`,
`cli.client.ContainerAttach`, the hijacked copy loop,
`cli.client.ContainerStart`, `cli.client.ContainerWait`, and
`cli.getExitCode`. -/
structure Daemon where
  ttyCheckErr : Option String
  createErr : Option String
  createID : String
  attachErr : Option AttachError
  hijackRes : HijackResult
  startErr : Option String
  waitRes : Except String Int
  inspectRes : Except String Int

/-- Externally visible actions of one `CmdRun` invocation, in program
order.  `spawnEmit` is the spawning of the goroutine that prints the
container id; `joinEmit` is the `<-waitDisplayID` receive; `joinAttach`
is the `<-errCh` receive; `remove` is the deferred auto-remove call. -/
inductive Event
  | create
  | sigProxyStart
  | spawnEmit (id : String)
  | attach
  | start
  | cancel
  | joinAttach
  | monitorTty
  | joinEmit
  | wait
  | inspect
  | remove
deriving DecidableEq

/-- The `error` values `CmdRun` can return (`none` models a nil return). -/
inductive RunErr
  | conflictAttachDetach
  | conflictRestartAutoRemove
  | conflictDetachAutoRemove
  | rawErr (msg : String)
  | statusErr (code : Int)
  | attachFailed (msg : String)
  | persistEOFErr
deriving DecidableEq

/-- Modelled from the spec: `holdHijackedConnection` is not under `src/`
(only its caller is).  Per the spec's AttachSession contract, a
connection-closed condition after all requested data has been exchanged
is treated as clean completion (nil), and any other transport failure in
the copy loop is returned as an error. -/
def holdHijackedConnection : HijackResult → Option String
  | .clean => none
  | .closedAfterDone => none
  | .failed m => some m

/-- The value delivered on `errCh` (run.go lines 217-223): the hijack
error when non-nil, otherwise the saved `errAttach` (which at this point
is nil or `ErrPersistEOF`). -/
def errChResult (errAttach : Option AttachError) (r : HijackResult) : Option RunErr :=
  match holdHijackedConnection r with
  | some m => some (.attachFailed m)
  | none =>
      match errAttach with
      | none => none
      | some .persistEOF => some .persistEOFErr
      | some (.transport m) => some (.attachFailed m)

/-- Appends the deferred auto-remove call (run.go lines 226-234) to a
return path that executes after the defer was registered. -/
def deferRemove (fl : Flags) (p : List Event × Option RunErr) : List Event × Option RunErr :=
  (p.1 ++ (if fl.autoRemove then [Event.remove] else []), p.2)

/-- Exit-status reconciliation (run.go lines 270-300), reached only in
attached mode: auto-remove blocks on the wait call but takes the code
from the inspect call, classifying a wait failure with
`runStartContainerErr`; attached non-tty takes the code from the wait
call; attached tty takes it from the inspect call. -/
def exitStatusSection (config : Config) (fl : Flags) (d : Daemon) :
    List Event × Option RunErr :=
  if fl.autoRemove then
    match d.waitRes with
    | .error e => ([.wait], some (.statusErr (runStartContainerErr e)))
    | .ok _ =>
        match d.inspectRes with
        | .error e => ([.wait, .inspect], some (.rawErr e))
        | .ok status =>
            ([.wait, .inspect], if status = 0 then none else some (.statusErr status))
  else if !config.tty then
    match d.waitRes with
    | .error e => ([.wait], some (.rawErr e))
    | .ok status => ([.wait], if status = 0 then none else some (.statusErr status))
  else
    match d.inspectRes with
    | .error e => ([.inspect], some (.rawErr e))
    | .ok status => ([.inspect], if status = 0 then none else some (.statusErr status))

/-- Run.go lines 263-300: the `<-waitDisplayID` return for runs with
neither stdout nor stderr attached, else the exit-status section; both
run the deferred auto-remove on the way out. -/
def afterAttachJoin (config : Config) (fl : Flags) (d : Daemon) (ev : List Event) :
    List Event × Option RunErr :=
  if !config.attachStdout && !config.attachStderr then
    deferRemove fl (ev ++ [Event.joinEmit], none)
  else
    let p := exitStatusSection config fl d
    deferRemove fl (ev ++ p.1, p.2)

/-- Run.go lines 236-261: the start call (on failure with an open attach
session, cancel it and drain `errCh` before returning the classified
start error), the tty-size monitor, and the `<-errCh` receive. -/
def afterAttach (config : Config) (fl : Flags) (cli : CliState) (d : Daemon)
    (ev : List Event) (attach : Bool) (errAttach : Option AttachError) :
    List Event × Option RunErr :=
  match d.startErr with
  | some e =>
      deferRemove fl
        (ev ++ [Event.start] ++ (if attach then [Event.cancel, Event.joinAttach] else []),
         some (.statusErr (runStartContainerErr e)))
  | none =>
      let ev2 := ev ++ [Event.start]
        ++ (if (config.attachStdin || config.attachStdout || config.attachStderr)
              && config.tty && cli.isTerminalOut then [Event.monitorTty] else [])
      if attach then
        match errChResult errAttach d.hijackRes with
        | some e => deferRemove fl (ev2 ++ [Event.joinAttach], some e)
        | none => afterAttachJoin config fl d (ev2 ++ [Event.joinAttach])
      else afterAttachJoin config fl d ev2

/-- Run.go lines 150-234 once validation passed: the create call (a
failure is classified by `runStartContainerErr`), signal proxying, the
asynchronous id emission for runs with neither stdout nor stderr
attached, the late `--rm`/restart-policy conflict check, and the attach
session setup (an attach error other than `ErrPersistEOF` returns
immediately). -/
def cmdRunAfterValidate (config : Config) (host : HostConfig) (fl : Flags)
    (cli : CliState) (d : Daemon) : List Event × Option RunErr :=
  match d.createErr with
  | some e => ([.create], some (.statusErr (runStartContainerErr e)))
  | none =>
      let sigProxy := fl.sigProxy && !config.tty
      let ev1 : List Event :=
        [.create] ++ (if sigProxy then [.sigProxyStart] else [])
          ++ (if !config.attachStdout && !config.attachStderr
                then [.spawnEmit d.createID] else [])
      if fl.autoRemove && (host.restartPolicy.isAlways || host.restartPolicy.isOnFailure) then
        (ev1, some .conflictRestartAutoRemove)
      else
        let attach := config.attachStdin || config.attachStdout || config.attachStderr
        if attach then
          match d.attachErr with
          | some (.transport m) => (ev1 ++ [.attach], some (.attachFailed m))
          | e => afterAttach config fl cli d (ev1 ++ [.attach]) true e
        else afterAttach config fl cli d ev1 false none

/-- `CmdRun` (run.go lines 68-301), from the empty-image usage return
onward: the detach-mode validation (attach-list and `--rm` conflicts,
clearing of the attach flags), the non-detach `CheckTtyInput` check, then
`cmdRunAfterValidate`. -/
def cmdRun (config : Config) (host : HostConfig) (fl : Flags) (cli : CliState)
    (d : Daemon) : List Event × Option RunErr :=
  if config.image = "" then ([], none)
  else if !fl.detach then
    match d.ttyCheckErr with
    | some e => ([], some (.rawErr e))
    | none => cmdRunAfterValidate config host fl cli d
  else
    if fl.attachLen ≠ 0 then ([], some .conflictAttachDetach)
    else if fl.autoRemove then ([], some .conflictDetachAutoRemove)
    else
      cmdRunAfterValidate
        { config with attachStdin := false, attachStdout := false,
                      attachStderr := false, stdinOnce := false }
        host fl cli d

/-! ### Helper lemmas -/

theorem mem_ite_nil {α : Type} (c : Prop) [Decidable c] (a : α) (l : List α) :
    (a ∈ if c then l else []) ↔ c ∧ a ∈ l := by
  split <;> simp_all

theorem empty_append_str (s : String) : "" ++ s = s := by
  cases s
  rfl

/-! ### Claim theorems -/

/-- C2 counterexample: the message `"Container command 'foo' not found"`
contains both `"Container command"` and `"not found"` (and carries no
envelope prefix to strip), yet `runStartContainerErr` classifies it as
125, not 127 — the code requires `"Container command"` as a prefix and
the full phrase `"not found or does not exist"` as the substring. -/
theorem c2_counterexample :
    strContains (strTrimPre "Container command 'foo' not found"
        "Error response from daemon: ") "Container command" = true ∧
    strContains (strTrimPre "Container command 'foo' not found"
        "Error response from daemon: ") "not found" = true ∧
    runStartContainerErr "Container command 'foo' not found" = 125 ∧
    runStartContainerErr "Container command 'foo' not found" ≠ 127 := by
  refine ⟨by decide, by decide, by decide, by decide⟩

/-- C2 (amended): after stripping the fixed daemon envelope prefix, a
create/start failure message is classified 127 when it starts with
`"Container command"` and contains `"not found or does not exist"`, 126
when it starts with `"Container command"` and contains
`"could not be invoked"` but not the not-found phrase, and 125 in every
other case. -/
theorem c2_error_classification (msg : String) :
    (strStartsWith (strTrimPre msg "Error response from daemon: ") "Container command" = true →
      strContains (strTrimPre msg "Error response from daemon: ") errCmdNotFound = true →
      runStartContainerErr msg = 127) ∧
    (strStartsWith (strTrimPre msg "Error response from daemon: ") "Container command" = true →
      strContains (strTrimPre msg "Error response from daemon: ") errCmdNotFound = false →
      strContains (strTrimPre msg "Error response from daemon: ") errCmdCouldNotBeInvoked = true →
      runStartContainerErr msg = 126) ∧
    (strStartsWith (strTrimPre msg "Error response from daemon: ") "Container command" = false →
      runStartContainerErr msg = 125) ∧
    (strStartsWith (strTrimPre msg "Error response from daemon: ") "Container command" = true →
      strContains (strTrimPre msg "Error response from daemon: ") errCmdNotFound = false →
      strContains (strTrimPre msg "Error response from daemon: ") errCmdCouldNotBeInvoked = false →
      runStartContainerErr msg = 125) := by
  unfold runStartContainerErr
  refine ⟨?_, ?_, ?_, ?_⟩ <;> intros <;> simp_all

/-- Witness for `c2_error_classification` at the four concrete messages. -/
theorem c2_error_classification_witness :
    runStartContainerErr
      "Error response from daemon: Container command 'x' not found or does not exist" = 127 ∧
    runStartContainerErr "Container command 'y' could not be invoked" = 126 ∧
    runStartContainerErr "no such image" = 125 ∧
    runStartContainerErr "Container command mysterious" = 125 :=
  ⟨(c2_error_classification _).1 (by decide) (by decide),
   (c2_error_classification _).2.1 (by decide) (by decide) (by decide),
   (c2_error_classification _).2.2.1 (by decide),
   (c2_error_classification _).2.2.2 (by decide) (by decide) (by decide)⟩

/-- C4: the backspace filter wraps the writer exactly when the session is
a tty and the console build is older than 14350; when wrapped, each
written byte 0x7F maps to 0x08 and all other bytes are unchanged; when
not wrapped, the writer is the untouched pass-through. -/
theorem c4_backspace_filter (w : Writer) (tty : Bool) (build : Nat) (b : List Nat) :
    (tty = true → build < 14350 →
      fixStdinBackspaceBehavior w tty build b = w (b.map delToBs)) ∧
    ((tty = false ∨ 14350 ≤ build) → fixStdinBackspaceBehavior w tty build b = w b) ∧
    delToBs 0x7f = 0x8 ∧ (∀ c, c ≠ 0x7f → delToBs c = c) := by
  refine ⟨?_, ?_, by decide, fun c hc => by simp [delToBs, hc]⟩
  · intro ht hb
    have hnb : ¬ (14350 ≤ build) := Nat.not_le.mpr hb
    simp [fixStdinBackspaceBehavior, ht, hnb, delToBsWrite]
  · rintro (h | h) <;> simp [fixStdinBackspaceBehavior, h, delToBsWrite]

/-- Witness for `c4_backspace_filter`: active on build 14349 with a tty,
inactive on build 14350, and 0x41 is left unchanged by the remap. -/
theorem c4_backspace_filter_witness :
    fixStdinBackspaceBehavior (fun l => (l.length, none)) true 14349 [0x7f, 0x41]
      = (fun l => (l.length, none)) ([0x7f, 0x41].map delToBs) ∧
    fixStdinBackspaceBehavior (fun l => (l.length, none)) true 14350 [0x7f]
      = (fun l => (l.length, none)) [0x7f] ∧
    delToBs 0x41 = 0x41 :=
  ⟨(c4_backspace_filter (fun l => (l.length, none)) true 14349 [0x7f, 0x41]).1 rfl (by decide),
   (c4_backspace_filter (fun l => (l.length, none)) true 14350 [0x7f]).2.1 (Or.inr (by decide)),
   (c4_backspace_filter (fun l => (l.length, none)) true 14349 []).2.2.2 0x41 (by decide)⟩

/-- C9: the filtering writer hands the underlying writer a freshly built
buffer of exactly the input's length whose entries are the pointwise
remap of the input (the caller's list is never modified — the embedding
is pure and the input is only read), and reports exactly what the
underlying writer returns on that same-length buffer. -/
theorem c9_fresh_buffer (w : Writer) (b : List Nat) :
    (b.map delToBs).length = b.length ∧
    (∀ i, i < b.length → (b.map delToBs).getD i 0 = delToBs (b.getD i 0)) ∧
    delToBsWrite w b = w (b.map delToBs) := by
  refine ⟨List.length_map b delToBs, fun i hi => ?_, rfl⟩
  induction b generalizing i with
  | nil => simp at hi
  | cons x xs ih =>
      cases i with
      | zero => simp
      | succ j =>
          simp only [List.map_cons, List.getD_cons_succ]
          exact ih j (Nat.lt_of_succ_lt_succ hi)

/-- Witness for `c9_fresh_buffer` on the buffer `[0x7f, 0x41]` at index 0. -/
theorem c9_fresh_buffer_witness :
    ([0x7f, 0x41].map delToBs).length = [0x7f, 0x41].length ∧
    ([0x7f, 0x41].map delToBs).getD 0 0 = delToBs ([0x7f, 0x41].getD 0 0) ∧
    delToBsWrite (fun l => (l.length, none)) [0x7f, 0x41]
      = (fun l => (l.length, none)) ([0x7f, 0x41].map delToBs) :=
  ⟨(c9_fresh_buffer (fun l => (l.length, none)) [0x7f, 0x41]).1,
   (c9_fresh_buffer (fun l => (l.length, none)) [0x7f, 0x41]).2.1 0 (by decide),
   (c9_fresh_buffer (fun l => (l.length, none)) [0x7f, 0x41]).2.2⟩

/-- C3: for a CID file whose backing path currently holds the empty file
and which was never written, (a) a successful `Write` followed by `Close`
leaves the path present with exactly the written bytes and `Close`
reports no error regardless of the removal oracle, (b) `Close` without a
prior `Write` deletes the path, and (c) a failing deletion is reported by
`Close` as a remove error, distinct from any write error. -/
theorem c3_cidfile_close (fs : FS) (c : CidFile) (id e : String)
    (hw : c.written = false) (hc : fs c.path = some "") :
    ((cidWrite fs c id none).2.1.written = true ∧
      ∀ rm, (cidClose (cidWrite fs c id none).1 (cidWrite fs c id none).2.1 rm).1 c.path
              = some id ∧
            (cidClose (cidWrite fs c id none).1 (cidWrite fs c id none).2.1 rm).2 = none) ∧
    ((cidClose fs c none).1 c.path = none ∧ (cidClose fs c none).2 = none) ∧
    ((cidClose fs c (some e)).2 = some (.removeFailed c.path e) ∧
      ∀ m, CidErr.removeFailed c.path e ≠ CidErr.writeFailed m) := by
  refine ⟨⟨by simp [cidWrite], fun rm => ?_⟩, ⟨?_, ?_⟩, ⟨?_, fun m => by simp⟩⟩
  · simp [cidWrite, cidClose, hc, empty_append_str]
  · simp [cidClose, hw]
  · simp [cidClose, hw]
  · simp [cidClose, hw]

/-- Witness for `c3_cidfile_close` on a concrete one-file filesystem. -/
theorem c3_cidfile_close_witness :
    (cidClose (cidWrite (fun p => if p = "/x/cid" then some "" else none)
        ⟨"/x/cid", false⟩ "abc" none).1
      (cidWrite (fun p => if p = "/x/cid" then some "" else none)
        ⟨"/x/cid", false⟩ "abc" none).2.1 none).1 "/x/cid" = some "abc" ∧
    (cidClose (fun p => if p = "/x/cid" then some "" else none)
        ⟨"/x/cid", false⟩ none).1 "/x/cid" = none ∧
    (cidClose (fun p => if p = "/x/cid" then some "" else none)
        ⟨"/x/cid", false⟩ (some "EPERM")).2 = some (.removeFailed "/x/cid" "EPERM") :=
  ⟨((c3_cidfile_close (fun p => if p = "/x/cid" then some "" else none)
        ⟨"/x/cid", false⟩ "abc" "EPERM" rfl (by decide)).1.2 none).1,
   (c3_cidfile_close (fun p => if p = "/x/cid" then some "" else none)
        ⟨"/x/cid", false⟩ "abc" "EPERM" rfl (by decide)).2.1.1,
   (c3_cidfile_close (fun p => if p = "/x/cid" then some "" else none)
        ⟨"/x/cid", false⟩ "abc" "EPERM" rfl (by decide)).2.2.1⟩

/-- C10: a failing underlying write makes `cidFile.Write` return the
wrapped write error while leaving the `cidFile` (in particular its
`written` flag) and the filesystem unchanged, so a subsequent `Close`
still deletes the backing path. -/
theorem c10_failed_write (fs : FS) (c : CidFile) (id we : String)
    (hw : c.written = false) :
    (cidWrite fs c id (some we)).2.2 = some (.writeFailed we) ∧
    (cidWrite fs c id (some we)).2.1 = c ∧
    (cidWrite fs c id (some we)).1 = fs ∧
    (cidClose (cidWrite fs c id (some we)).1 (cidWrite fs c id (some we)).2.1 none).1
        c.path = none := by
  refine ⟨by simp [cidWrite], by simp [cidWrite], by simp [cidWrite], ?_⟩
  simp [cidWrite, cidClose, hw]

/-- Witness for `c10_failed_write` on a concrete one-file filesystem. -/
theorem c10_failed_write_witness :
    (cidWrite (fun p => if p = "/y/cid" then some "" else none)
        ⟨"/y/cid", false⟩ "abc" (some "EIO")).2.2 = some (.writeFailed "EIO") ∧
    (cidClose (cidWrite (fun p => if p = "/y/cid" then some "" else none)
          ⟨"/y/cid", false⟩ "abc" (some "EIO")).1
        (cidWrite (fun p => if p = "/y/cid" then some "" else none)
          ⟨"/y/cid", false⟩ "abc" (some "EIO")).2.1 none).1 "/y/cid" = none :=
  ⟨(c10_failed_write (fun p => if p = "/y/cid" then some "" else none)
      ⟨"/y/cid", false⟩ "abc" "EIO" rfl).1,
   (c10_failed_write (fun p => if p = "/y/cid" then some "" else none)
      ⟨"/y/cid", false⟩ "abc" "EIO" rfl).2.2.2⟩

/-! ### Stage lemmas for the orchestration pipeline -/

theorem cmdRun_nondetach (config : Config) (host : HostConfig) (fl : Flags)
    (cli : CliState) (d : Daemon) (himg : config.image ≠ "")
    (hdet : fl.detach = false) (htty : d.ttyCheckErr = none) :
    cmdRun config host fl cli d = cmdRunAfterValidate config host fl cli d := by
  simp [cmdRun, himg, hdet, htty]

theorem cmdRunAfterValidate_ok (config : Config) (host : HostConfig) (fl : Flags)
    (cli : CliState) (d : Daemon) (hcr : d.createErr = none)
    (hnc : (fl.autoRemove
        && (host.restartPolicy.isAlways || host.restartPolicy.isOnFailure)) = false)
    (hae : d.attachErr = none) :
    cmdRunAfterValidate config host fl cli d
      = afterAttach config fl cli d
          ([Event.create]
            ++ (if fl.sigProxy && !config.tty then [Event.sigProxyStart] else [])
            ++ (if !config.attachStdout && !config.attachStderr
                  then [Event.spawnEmit d.createID] else [])
            ++ (if config.attachStdin || config.attachStdout || config.attachStderr
                  then [Event.attach] else []))
          (config.attachStdin || config.attachStdout || config.attachStderr)
          none := by
  cases hA : (config.attachStdin || config.attachStdout || config.attachStderr) <;>
    simp [cmdRunAfterValidate, hcr, hnc, hae, hA]

theorem afterAttach_ok (config : Config) (fl : Flags) (cli : CliState) (d : Daemon)
    (ev : List Event) (attach : Bool) (ea : Option AttachError)
    (hst : d.startErr = none) (hch : errChResult ea d.hijackRes = none) :
    afterAttach config fl cli d ev attach ea
      = afterAttachJoin config fl d
          (ev ++ [Event.start]
            ++ (if (config.attachStdin || config.attachStdout || config.attachStderr)
                  && config.tty && cli.isTerminalOut then [Event.monitorTty] else [])
            ++ (if attach then [Event.joinAttach] else [])) := by
  cases attach <;> simp [afterAttach, hst, hch]

theorem afterAttachJoin_detached (config : Config) (fl : Flags) (d : Daemon)
    (ev : List Event) (h1 : config.attachStdout = false) (h2 : config.attachStderr = false) :
    afterAttachJoin config fl d ev
      = (ev ++ [Event.joinEmit] ++ (if fl.autoRemove then [Event.remove] else []), none) := by
  simp [afterAttachJoin, deferRemove, h1, h2]

theorem afterAttachJoin_attached (config : Config) (fl : Flags) (d : Daemon)
    (ev : List Event) (h : (config.attachStdout || config.attachStderr) = true) :
    afterAttachJoin config fl d ev
      = (ev ++ (exitStatusSection config fl d).1
            ++ (if fl.autoRemove then [Event.remove] else []),
         (exitStatusSection config fl d).2) := by
  have : (!config.attachStdout && !config.attachStderr) = false := by
    cases hso : config.attachStdout <;> simp_all
  simp [afterAttachJoin, deferRemove, this]

theorem cmdRunAfterValidate_noattach (config : Config) (host : HostConfig) (fl : Flags)
    (cli : CliState) (d : Daemon) (hcr : d.createErr = none)
    (hnc : (fl.autoRemove
        && (host.restartPolicy.isAlways || host.restartPolicy.isOnFailure)) = false)
    (hA : (config.attachStdin || config.attachStdout || config.attachStderr) = false) :
    cmdRunAfterValidate config host fl cli d
      = afterAttach config fl cli d
          ([Event.create]
            ++ (if fl.sigProxy && !config.tty then [Event.sigProxyStart] else [])
            ++ [Event.spawnEmit d.createID]) false none := by
  obtain ⟨⟨h1, h2⟩, h3⟩ :
      (config.attachStdin = false ∧ config.attachStdout = false)
        ∧ config.attachStderr = false := by
    simpa using hA
  simp [cmdRunAfterValidate, hcr, hnc, h1, h2, h3]

theorem cmdRunAfterValidate_attach (config : Config) (host : HostConfig) (fl : Flags)
    (cli : CliState) (d : Daemon) (hcr : d.createErr = none)
    (hnc : (fl.autoRemove
        && (host.restartPolicy.isAlways || host.restartPolicy.isOnFailure)) = false)
    (hA : (config.attachStdin || config.attachStdout || config.attachStderr) = true)
    (hne : ∀ m, d.attachErr ≠ some (.transport m)) :
    cmdRunAfterValidate config host fl cli d
      = afterAttach config fl cli d
          ([Event.create]
            ++ (if fl.sigProxy && !config.tty then [Event.sigProxyStart] else [])
            ++ (if !config.attachStdout && !config.attachStderr
                  then [Event.spawnEmit d.createID] else [])
            ++ [Event.attach]) true d.attachErr := by
  cases hat : d.attachErr with
  | none => simp [cmdRunAfterValidate, hcr, hnc, hA, hat]
  | some ae =>
      cases ae with
      | persistEOF => simp [cmdRunAfterValidate, hcr, hnc, hA, hat]
      | transport m => exact absurd hat (hne m)

theorem cmdRunAfterValidate_attachfail (config : Config) (host : HostConfig) (fl : Flags)
    (cli : CliState) (d : Daemon) (m : String) (hcr : d.createErr = none)
    (hnc : (fl.autoRemove
        && (host.restartPolicy.isAlways || host.restartPolicy.isOnFailure)) = false)
    (hA : (config.attachStdin || config.attachStdout || config.attachStderr) = true)
    (hat : d.attachErr = some (.transport m)) :
    cmdRunAfterValidate config host fl cli d
      = ([Event.create]
          ++ (if fl.sigProxy && !config.tty then [Event.sigProxyStart] else [])
          ++ (if !config.attachStdout && !config.attachStderr
                then [Event.spawnEmit d.createID] else [])
          ++ [Event.attach], some (.attachFailed m)) := by
  simp [cmdRunAfterValidate, hcr, hnc, hA, hat]

theorem afterAttach_noattach (config : Config) (fl : Flags) (cli : CliState) (d : Daemon)
    (ev : List Event) (ea : Option AttachError) (hst : d.startErr = none)
    (hA : (config.attachStdin || config.attachStdout || config.attachStderr) = false) :
    afterAttach config fl cli d ev false ea
      = afterAttachJoin config fl d (ev ++ [Event.start]) := by
  simp [afterAttach, hst, hA]

theorem afterAttach_startfail (config : Config) (fl : Flags) (cli : CliState) (d : Daemon)
    (ev : List Event) (attach : Bool) (ea : Option AttachError) (e : String)
    (hst : d.startErr = some e) :
    afterAttach config fl cli d ev attach ea
      = ((ev ++ [Event.start] ++ (if attach then [Event.cancel, Event.joinAttach] else []))
           ++ (if fl.autoRemove then [Event.remove] else []),
         some (.statusErr (runStartContainerErr e))) := by
  simp [afterAttach, hst, deferRemove]

theorem afterAttach_hijackfail (config : Config) (fl : Flags) (cli : CliState) (d : Daemon)
    (ev : List Event) (ea : Option AttachError) (e : RunErr) (hst : d.startErr = none)
    (hch : errChResult ea d.hijackRes = some e) :
    afterAttach config fl cli d ev true ea
      = ((ev ++ [Event.start]
            ++ (if (config.attachStdin || config.attachStdout || config.attachStderr)
                  && config.tty && cli.isTerminalOut then [Event.monitorTty] else [])
            ++ [Event.joinAttach]) ++ (if fl.autoRemove then [Event.remove] else []),
         some e) := by
  simp [afterAttach, hst, hch, deferRemove]

/-! ### C1 -/

/-- C1 counterexample: a non-detached run with `--rm` and restart policy
"always" returns the restart-policy/auto-remove `ConfigConflict`, yet the
daemon create call HAS already been issued — the conflict is checked only
after `createContainer` (run.go line 173 versus line 152). -/
theorem c1_counterexample :
    (cmdRun ⟨false, false, false, false, false, "img"⟩ ⟨⟨"always"⟩⟩ ⟨true, false, true, 0⟩
        ⟨false⟩ ⟨none, none, "cid123", none, .clean, none, .ok 0, .ok 0⟩).2
      = some RunErr.conflictRestartAutoRemove ∧
    Event.create ∈
      (cmdRun ⟨false, false, false, false, false, "img"⟩ ⟨⟨"always"⟩⟩ ⟨true, false, true, 0⟩
        ⟨false⟩ ⟨none, none, "cid123", none, .clean, none, .ok 0, .ok 0⟩).1 := by
  refine ⟨by decide, by decide⟩

/-- C1 (amended): the attach-list/detach and auto-remove/detach conflicts
return their `ConfigConflict` errors before any create call, while the
auto-remove/restart-policy conflict also returns its `ConfigConflict`
error but only after the daemon create call has been issued. -/
theorem c1_conflict_validation (config : Config) (host : HostConfig) (fl : Flags)
    (cli : CliState) (d : Daemon) (himg : config.image ≠ "") :
    (fl.detach = true → fl.attachLen ≠ 0 →
      (cmdRun config host fl cli d).2 = some RunErr.conflictAttachDetach ∧
      Event.create ∉ (cmdRun config host fl cli d).1) ∧
    (fl.detach = true → fl.attachLen = 0 → fl.autoRemove = true →
      (cmdRun config host fl cli d).2 = some RunErr.conflictDetachAutoRemove ∧
      Event.create ∉ (cmdRun config host fl cli d).1) ∧
    (fl.detach = false → d.ttyCheckErr = none → d.createErr = none →
      fl.autoRemove = true →
      (host.restartPolicy.isAlways || host.restartPolicy.isOnFailure) = true →
      (cmdRun config host fl cli d).2 = some RunErr.conflictRestartAutoRemove ∧
      Event.create ∈ (cmdRun config host fl cli d).1) := by
  refine ⟨?_, ?_, ?_⟩
  · intro hdet hlen
    simp [cmdRun, himg, hdet, hlen]
  · intro hdet hlen har
    simp [cmdRun, himg, hdet, hlen, har]
  · intro hdet htty hcr har hpol
    rw [cmdRun_nondetach config host fl cli d himg hdet htty]
    simp [cmdRunAfterValidate, hcr, har, hpol]

/-- Witness for `c1_conflict_validation`: the three conflicting flag
combinations at concrete inputs. -/
theorem c1_conflict_validation_witness :
    (cmdRun ⟨false, false, false, false, false, "img"⟩ ⟨⟨"no"⟩⟩ ⟨false, true, true, 1⟩
        ⟨false⟩ ⟨none, none, "cid", none, .clean, none, .ok 0, .ok 0⟩).2
      = some RunErr.conflictAttachDetach ∧
    (cmdRun ⟨false, false, false, false, false, "img"⟩ ⟨⟨"no"⟩⟩ ⟨true, true, true, 0⟩
        ⟨false⟩ ⟨none, none, "cid", none, .clean, none, .ok 0, .ok 0⟩).2
      = some RunErr.conflictDetachAutoRemove ∧
    (cmdRun ⟨false, false, false, false, false, "img"⟩ ⟨⟨"on-failure"⟩⟩ ⟨true, false, true, 0⟩
        ⟨false⟩ ⟨none, none, "cid", none, .clean, none, .ok 0, .ok 0⟩).2
      = some RunErr.conflictRestartAutoRemove :=
  ⟨((c1_conflict_validation _ _ _ _ _ (by decide)).1 rfl (by decide)).1,
   ((c1_conflict_validation _ _ _ _ _ (by decide)).2.1 rfl rfl rfl).1,
   ((c1_conflict_validation _ _ _ _ _ (by decide)).2.2 rfl rfl rfl rfl (by decide)).1⟩

/-! ### C5 -/

/-- C5: in every run in which neither stdout nor stderr is attached
(a detached run, or a non-detached run attaching at most stdin), once
create and start succeed the run returns success, never issues a wait or
inspect call, emits the container identifier, and its last action before
the deferred auto-remove is the join on the identifier emission. -/
theorem c5_detached_run (config : Config) (host : HostConfig) (fl : Flags)
    (cli : CliState) (d : Daemon)
    (himg : config.image ≠ "") (hcr : d.createErr = none) (hst : d.startErr = none) :
    (fl.detach = true → fl.attachLen = 0 → fl.autoRemove = false →
      (cmdRun config host fl cli d).2 = none ∧
      Event.wait ∉ (cmdRun config host fl cli d).1 ∧
      Event.inspect ∉ (cmdRun config host fl cli d).1 ∧
      Event.spawnEmit d.createID ∈ (cmdRun config host fl cli d).1 ∧
      ∃ p, (cmdRun config host fl cli d).1 = p ++ [Event.joinEmit]) ∧
    (fl.detach = false → d.ttyCheckErr = none →
      config.attachStdout = false → config.attachStderr = false →
      d.attachErr = none → d.hijackRes = .clean →
      (fl.autoRemove
        && (host.restartPolicy.isAlways || host.restartPolicy.isOnFailure)) = false →
      (cmdRun config host fl cli d).2 = none ∧
      Event.wait ∉ (cmdRun config host fl cli d).1 ∧
      Event.inspect ∉ (cmdRun config host fl cli d).1 ∧
      Event.spawnEmit d.createID ∈ (cmdRun config host fl cli d).1 ∧
      ∃ p, (cmdRun config host fl cli d).1
             = p ++ [Event.joinEmit] ++ (if fl.autoRemove then [Event.remove] else [])) := by
  constructor
  · intro hdet hlen har
    have h1 : cmdRun config host fl cli d
        = cmdRunAfterValidate
            { config with attachStdin := false, attachStdout := false,
                          attachStderr := false, stdinOnce := false } host fl cli d := by
      simp [cmdRun, himg, hdet, hlen, har]
    rw [cmdRunAfterValidate_noattach _ _ _ _ _ hcr (by simp [har]) (by simp)] at h1
    rw [afterAttach_noattach _ _ _ _ _ _ hst (by simp)] at h1
    rw [afterAttachJoin_detached _ _ _ _ rfl rfl] at h1
    refine ⟨by rw [h1], by rw [h1]; simp [mem_ite_nil],
            by rw [h1]; simp [mem_ite_nil], by rw [h1]; simp, ?_⟩
    refine ⟨[Event.create] ++ (if fl.sigProxy && !config.tty then [Event.sigProxyStart] else [])
        ++ [Event.spawnEmit d.createID, Event.start], ?_⟩
    rw [h1]
    simp [har]
  · intro hdet htty hso hse hae hhij hnc
    cases hsi : config.attachStdin with
    | true =>
        have h1 : cmdRun config host fl cli d = cmdRunAfterValidate config host fl cli d :=
          cmdRun_nondetach _ _ _ _ _ himg hdet htty
        rw [cmdRunAfterValidate_attach _ _ _ _ _ hcr hnc (by simp [hsi]) (by simp [hae])] at h1
        rw [hae] at h1
        rw [afterAttach_ok _ _ _ _ _ _ _ hst (by simp [hhij, errChResult, holdHijackedConnection])] at h1
        rw [afterAttachJoin_detached _ _ _ _ hso hse] at h1
        refine ⟨by rw [h1], by rw [h1]; simp [mem_ite_nil],
                by rw [h1]; simp [mem_ite_nil], by rw [h1]; simp [mem_ite_nil, hso, hse], ?_⟩
        exact ⟨_, by rw [h1]⟩
    | false =>
        have h1 : cmdRun config host fl cli d = cmdRunAfterValidate config host fl cli d :=
          cmdRun_nondetach _ _ _ _ _ himg hdet htty
        rw [cmdRunAfterValidate_noattach _ _ _ _ _ hcr hnc (by simp [hsi, hso, hse])] at h1
        rw [afterAttach_noattach _ _ _ _ _ _ hst (by simp [hsi, hso, hse])] at h1
        rw [afterAttachJoin_detached _ _ _ _ hso hse] at h1
        refine ⟨by rw [h1], by rw [h1]; simp [mem_ite_nil],
                by rw [h1]; simp [mem_ite_nil], by rw [h1]; simp, ?_⟩
        exact ⟨_, by rw [h1]⟩

/-- Witness for `c5_detached_run`: a fully detached run and a
stdin-only attached run, both on concrete oracles. -/
theorem c5_detached_run_witness :
    (cmdRun ⟨true, true, true, false, false, "img"⟩ ⟨⟨"no"⟩⟩ ⟨false, true, true, 0⟩ ⟨false⟩
        ⟨none, none, "cid", none, .clean, none, .ok 0, .ok 0⟩).2 = none ∧
    Event.wait ∉ (cmdRun ⟨true, true, true, false, false, "img"⟩ ⟨⟨"no"⟩⟩ ⟨false, true, true, 0⟩
        ⟨false⟩ ⟨none, none, "cid", none, .clean, none, .ok 0, .ok 0⟩).1 ∧
    (cmdRun ⟨true, false, false, false, false, "img"⟩ ⟨⟨"no"⟩⟩ ⟨false, false, true, 0⟩ ⟨false⟩
        ⟨none, none, "cid", none, .clean, none, .ok 0, .ok 0⟩).2 = none ∧
    Event.spawnEmit "cid" ∈
      (cmdRun ⟨true, false, false, false, false, "img"⟩ ⟨⟨"no"⟩⟩ ⟨false, false, true, 0⟩ ⟨false⟩
        ⟨none, none, "cid", none, .clean, none, .ok 0, .ok 0⟩).1 :=
  ⟨((c5_detached_run ⟨true, true, true, false, false, "img"⟩ ⟨⟨"no"⟩⟩ ⟨false, true, true, 0⟩
        ⟨false⟩ ⟨none, none, "cid", none, .clean, none, .ok 0, .ok 0⟩
        (by decide) rfl rfl).1 rfl rfl rfl).1,
   ((c5_detached_run ⟨true, true, true, false, false, "img"⟩ ⟨⟨"no"⟩⟩ ⟨false, true, true, 0⟩
        ⟨false⟩ ⟨none, none, "cid", none, .clean, none, .ok 0, .ok 0⟩
        (by decide) rfl rfl).1 rfl rfl rfl).2.1,
   ((c5_detached_run ⟨true, false, false, false, false, "img"⟩ ⟨⟨"no"⟩⟩ ⟨false, false, true, 0⟩
        ⟨false⟩ ⟨none, none, "cid", none, .clean, none, .ok 0, .ok 0⟩
        (by decide) rfl rfl).2 rfl rfl rfl rfl rfl rfl rfl).1,
   ((c5_detached_run ⟨true, false, false, false, false, "img"⟩ ⟨⟨"no"⟩⟩ ⟨false, false, true, 0⟩
        ⟨false⟩ ⟨none, none, "cid", none, .clean, none, .ok 0, .ok 0⟩
        (by decide) rfl rfl).2 rfl rfl rfl rfl rfl rfl rfl).2.2.2.1⟩

/-! ### C6 -/

/-- C6: for an attached run (stdout or stderr wired) that created,
attached and started successfully, the exit status source depends on the
mode: with auto-remove the run blocks on the wait call but reports the
inspect call's code (a wait failure being classified by
`runStartContainerErr`); attached non-tty reports the wait call's code
and never inspects; attached tty without auto-remove reports the inspect
call's code and never issues a wait call. -/
theorem c6_exit_status_sources (config : Config) (host : HostConfig) (fl : Flags)
    (cli : CliState) (d : Daemon)
    (himg : config.image ≠ "") (hdet : fl.detach = false) (htty : d.ttyCheckErr = none)
    (hcr : d.createErr = none) (hst : d.startErr = none) (hae : d.attachErr = none)
    (hhij : d.hijackRes = .clean)
    (hatt : (config.attachStdout || config.attachStderr) = true)
    (hpol : (host.restartPolicy.isAlways || host.restartPolicy.isOnFailure) = false) :
    (fl.autoRemove = true →
      (∀ e, d.waitRes = .error e →
        (cmdRun config host fl cli d).2 = some (.statusErr (runStartContainerErr e)) ∧
        Event.wait ∈ (cmdRun config host fl cli d).1 ∧
        Event.inspect ∉ (cmdRun config host fl cli d).1) ∧
      (∀ k s, d.waitRes = .ok k → d.inspectRes = .ok s →
        (cmdRun config host fl cli d).2
            = (if s = 0 then none else some (.statusErr s)) ∧
        Event.wait ∈ (cmdRun config host fl cli d).1 ∧
        Event.inspect ∈ (cmdRun config host fl cli d).1)) ∧
    (fl.autoRemove = false → config.tty = false →
      ∀ s, d.waitRes = .ok s →
        (cmdRun config host fl cli d).2
            = (if s = 0 then none else some (.statusErr s)) ∧
        Event.inspect ∉ (cmdRun config host fl cli d).1) ∧
    (fl.autoRemove = false → config.tty = true →
      ∀ s, d.inspectRes = .ok s →
        (cmdRun config host fl cli d).2
            = (if s = 0 then none else some (.statusErr s)) ∧
        Event.wait ∉ (cmdRun config host fl cli d).1) := by
  have hA : (config.attachStdin || config.attachStdout || config.attachStderr) = true := by
    cases h : config.attachStdout <;> simp_all
  have h1 : cmdRun config host fl cli d = cmdRunAfterValidate config host fl cli d :=
    cmdRun_nondetach _ _ _ _ _ himg hdet htty
  rw [cmdRunAfterValidate_attach _ _ _ _ _ hcr (by simp [hpol]) hA (by simp [hae])] at h1
  rw [hae] at h1
  rw [afterAttach_ok _ _ _ _ _ _ _ hst (by simp [hhij, errChResult, holdHijackedConnection])] at h1
  rw [afterAttachJoin_attached _ _ _ _ hatt] at h1
  refine ⟨?_, ?_, ?_⟩
  · intro har
    constructor
    · intro e hwe
      have hess : exitStatusSection config fl d
          = ([Event.wait], some (.statusErr (runStartContainerErr e))) := by
        simp [exitStatusSection, har, hwe]
      rw [hess] at h1
      exact ⟨by rw [h1], by rw [h1]; simp, by rw [h1]; simp [mem_ite_nil]⟩
    · intro k s hwo hio
      have hess : exitStatusSection config fl d
          = ([Event.wait, Event.inspect],
             if s = 0 then none else some (.statusErr s)) := by
        simp [exitStatusSection, har, hwo, hio]
      rw [hess] at h1
      exact ⟨by rw [h1], by rw [h1]; simp, by rw [h1]; simp⟩
  · intro har htt s hwo
    have hess : exitStatusSection config fl d
        = ([Event.wait], if s = 0 then none else some (.statusErr s)) := by
      simp [exitStatusSection, har, htt, hwo]
    rw [hess] at h1
    exact ⟨by rw [h1], by rw [h1]; simp [mem_ite_nil]⟩
  · intro har htt s hio
    have hess : exitStatusSection config fl d
        = ([Event.inspect], if s = 0 then none else some (.statusErr s)) := by
      simp [exitStatusSection, har, htt, hio]
    rw [hess] at h1
    exact ⟨by rw [h1], by rw [h1]; simp [mem_ite_nil]⟩

/-- Witness for `c6_exit_status_sources`: the three attached modes on
concrete oracles whose wait call reports 7 and whose inspect call
reports 3. -/
theorem c6_exit_status_sources_witness :
    (cmdRun ⟨false, true, false, false, false, "img"⟩ ⟨⟨"no"⟩⟩ ⟨true, false, true, 0⟩ ⟨false⟩
        ⟨none, none, "cid", none, .clean, none, .ok 7, .ok 3⟩).2
      = (if (3 : Int) = 0 then none else some (.statusErr 3)) ∧
    (cmdRun ⟨false, true, false, false, false, "img"⟩ ⟨⟨"no"⟩⟩ ⟨false, false, true, 0⟩ ⟨false⟩
        ⟨none, none, "cid", none, .clean, none, .ok 7, .ok 3⟩).2
      = (if (7 : Int) = 0 then none else some (.statusErr 7)) ∧
    Event.wait ∉
      (cmdRun ⟨false, true, false, true, false, "img"⟩ ⟨⟨"no"⟩⟩ ⟨false, false, true, 0⟩ ⟨false⟩
        ⟨none, none, "cid", none, .clean, none, .ok 7, .ok 3⟩).1 :=
  ⟨(((c6_exit_status_sources ⟨false, true, false, false, false, "img"⟩ ⟨⟨"no"⟩⟩
        ⟨true, false, true, 0⟩ ⟨false⟩ ⟨none, none, "cid", none, .clean, none, .ok 7, .ok 3⟩
        (by decide) rfl rfl rfl rfl rfl rfl rfl (by decide)).1 rfl).2 7 3 rfl rfl).1,
   ((c6_exit_status_sources ⟨false, true, false, false, false, "img"⟩ ⟨⟨"no"⟩⟩
        ⟨false, false, true, 0⟩ ⟨false⟩ ⟨none, none, "cid", none, .clean, none, .ok 7, .ok 3⟩
        (by decide) rfl rfl rfl rfl rfl rfl rfl (by decide)).2.1 rfl rfl 7 rfl).1,
   ((c6_exit_status_sources ⟨false, true, false, true, false, "img"⟩ ⟨⟨"no"⟩⟩
        ⟨false, false, true, 0⟩ ⟨false⟩ ⟨none, none, "cid", none, .clean, none, .ok 7, .ok 3⟩
        (by decide) rfl rfl rfl rfl rfl rfl rfl (by decide)).2.2 rfl rfl 3 rfl).2⟩

/-! ### C7 -/

/-- C7: when the start call fails while an attach session is open, the
run cancels the session token and drains the attach task's result
channel — the trace ends with start, cancel, join-attach (before the
deferred auto-remove) — and only then returns the start error classified
by `runStartContainerErr`; no wait call is ever issued. -/
theorem c7_start_failure_cancels_attach (config : Config) (host : HostConfig) (fl : Flags)
    (cli : CliState) (d : Daemon) (e : String)
    (himg : config.image ≠ "") (hdet : fl.detach = false) (htty : d.ttyCheckErr = none)
    (hcr : d.createErr = none)
    (hnc : (fl.autoRemove
        && (host.restartPolicy.isAlways || host.restartPolicy.isOnFailure)) = false)
    (hA : (config.attachStdin || config.attachStdout || config.attachStderr) = true)
    (hne : ∀ m, d.attachErr ≠ some (.transport m))
    (hst : d.startErr = some e) :
    (cmdRun config host fl cli d).2 = some (.statusErr (runStartContainerErr e)) ∧
    Event.wait ∉ (cmdRun config host fl cli d).1 ∧
    ∃ p, (cmdRun config host fl cli d).1
           = (p ++ [Event.start, Event.cancel, Event.joinAttach])
               ++ (if fl.autoRemove then [Event.remove] else []) := by
  have h1 : cmdRun config host fl cli d = cmdRunAfterValidate config host fl cli d :=
    cmdRun_nondetach _ _ _ _ _ himg hdet htty
  rw [cmdRunAfterValidate_attach _ _ _ _ _ hcr hnc hA hne] at h1
  rw [afterAttach_startfail _ _ _ _ _ _ _ _ hst] at h1
  refine ⟨by rw [h1], by rw [h1]; simp [mem_ite_nil], ?_⟩
  refine ⟨[Event.create] ++ (if fl.sigProxy && !config.tty then [Event.sigProxyStart] else [])
      ++ (if !config.attachStdout && !config.attachStderr
            then [Event.spawnEmit d.createID] else []) ++ [Event.attach], ?_⟩
  rw [h1]
  simp

/-- Witness for `c7_start_failure_cancels_attach` on a concrete attached
run whose start call fails with a generic message. -/
theorem c7_start_failure_cancels_attach_witness :
    (cmdRun ⟨true, true, true, false, false, "img"⟩ ⟨⟨"no"⟩⟩ ⟨false, false, true, 0⟩ ⟨false⟩
        ⟨none, none, "cid", none, .clean, some "boom", .ok 0, .ok 0⟩).2
      = some (.statusErr (runStartContainerErr "boom")) ∧
    Event.wait ∉
      (cmdRun ⟨true, true, true, false, false, "img"⟩ ⟨⟨"no"⟩⟩ ⟨false, false, true, 0⟩ ⟨false⟩
        ⟨none, none, "cid", none, .clean, some "boom", .ok 0, .ok 0⟩).1 :=
  ⟨(c7_start_failure_cancels_attach ⟨true, true, true, false, false, "img"⟩ ⟨⟨"no"⟩⟩
      ⟨false, false, true, 0⟩ ⟨false⟩
      ⟨none, none, "cid", none, .clean, some "boom", .ok 0, .ok 0⟩ "boom"
      (by decide) rfl rfl rfl rfl rfl (by simp) rfl).1,
   (c7_start_failure_cancels_attach ⟨true, true, true, false, false, "img"⟩ ⟨⟨"no"⟩⟩
      ⟨false, false, true, 0⟩ ⟨false⟩
      ⟨none, none, "cid", none, .clean, some "boom", .ok 0, .ok 0⟩ "boom"
      (by decide) rfl rfl rfl rfl rfl (by simp) rfl).2.1⟩

/-! ### C8 -/

/-- C8: an attach-setup transport failure other than the persistent-EOF
condition is returned as the attach failure before the container is ever
started; a transport failure inside the stream-copy loop is returned as
the attach failure after the join; and a connection-closed condition
after all requested data was exchanged is clean completion — the run
returns success. -/
theorem c8_attach_error_handling (config : Config) (host : HostConfig) (fl : Flags)
    (cli : CliState) (d : Daemon)
    (himg : config.image ≠ "") (hdet : fl.detach = false) (htty : d.ttyCheckErr = none)
    (hcr : d.createErr = none)
    (hnc : (fl.autoRemove
        && (host.restartPolicy.isAlways || host.restartPolicy.isOnFailure)) = false) :
    (∀ m, (config.attachStdin || config.attachStdout || config.attachStderr) = true →
      d.attachErr = some (.transport m) →
      (cmdRun config host fl cli d).2 = some (.attachFailed m) ∧
      Event.start ∉ (cmdRun config host fl cli d).1) ∧
    (∀ m, (config.attachStdin || config.attachStdout || config.attachStderr) = true →
      d.attachErr = none → d.startErr = none → d.hijackRes = .failed m →
      (cmdRun config host fl cli d).2 = some (.attachFailed m)) ∧
    (d.attachErr = none → d.startErr = none → d.hijackRes = .closedAfterDone →
      config.attachStdout = true → fl.autoRemove = false → config.tty = false →
      d.waitRes = .ok 0 →
      (cmdRun config host fl cli d).2 = none) := by
  have h0 : cmdRun config host fl cli d = cmdRunAfterValidate config host fl cli d :=
    cmdRun_nondetach _ _ _ _ _ himg hdet htty
  refine ⟨?_, ?_, ?_⟩
  · intro m hA hat
    have h1 := h0
    rw [cmdRunAfterValidate_attachfail _ _ _ _ _ m hcr hnc hA hat] at h1
    exact ⟨by rw [h1], by rw [h1]; simp [mem_ite_nil]⟩
  · intro m hA hae hst hhij
    have h1 := h0
    rw [cmdRunAfterValidate_attach _ _ _ _ _ hcr hnc hA (by simp [hae])] at h1
    rw [hae] at h1
    rw [afterAttach_hijackfail _ _ _ _ _ _ (RunErr.attachFailed m) hst
          (by simp [hhij, errChResult, holdHijackedConnection])] at h1
    rw [h1]
  · intro hae hst hhij hso har htt hwo
    have hatt : (config.attachStdout || config.attachStderr) = true := by simp [hso]
    have h1 := h0
    rw [cmdRunAfterValidate_attach _ _ _ _ _ hcr hnc (by simp [hso]) (by simp [hae])] at h1
    rw [hae] at h1
    rw [afterAttach_ok _ _ _ _ _ _ _ hst (by simp [hhij, errChResult, holdHijackedConnection])] at h1
    rw [afterAttachJoin_attached _ _ _ _ hatt] at h1
    have hess : exitStatusSection config fl d = ([Event.wait], none) := by
      simp [exitStatusSection, har, htt, hwo]
    rw [hess] at h1
    rw [h1]

/-- Witness for `c8_attach_error_handling`: a failed attach setup, a
failed copy loop, and a connection closed after completion, on concrete
runs. -/
theorem c8_attach_error_handling_witness :
    (cmdRun ⟨true, true, true, false, false, "img"⟩ ⟨⟨"no"⟩⟩ ⟨false, false, true, 0⟩ ⟨false⟩
        ⟨none, none, "cid", some (.transport "broken pipe"), .clean, none, .ok 0, .ok 0⟩).2
      = some (.attachFailed "broken pipe") ∧
    (cmdRun ⟨true, true, true, false, false, "img"⟩ ⟨⟨"no"⟩⟩ ⟨false, false, true, 0⟩ ⟨false⟩
        ⟨none, none, "cid", none, .failed "reset", none, .ok 0, .ok 0⟩).2
      = some (.attachFailed "reset") ∧
    (cmdRun ⟨false, true, false, false, false, "img"⟩ ⟨⟨"no"⟩⟩ ⟨false, false, true, 0⟩ ⟨false⟩
        ⟨none, none, "cid", none, .closedAfterDone, none, .ok 0, .ok 0⟩).2 = none :=
  ⟨((c8_attach_error_handling ⟨true, true, true, false, false, "img"⟩ ⟨⟨"no"⟩⟩
      ⟨false, false, true, 0⟩ ⟨false⟩
      ⟨none, none, "cid", some (.transport "broken pipe"), .clean, none, .ok 0, .ok 0⟩
      (by decide) rfl rfl rfl rfl).1 "broken pipe" (by simp) rfl).1,
   (c8_attach_error_handling ⟨true, true, true, false, false, "img"⟩ ⟨⟨"no"⟩⟩
      ⟨false, false, true, 0⟩ ⟨false⟩
      ⟨none, none, "cid", none, .failed "reset", none, .ok 0, .ok 0⟩
      (by decide) rfl rfl rfl rfl).2.1 "reset" (by simp) rfl rfl rfl,
   (c8_attach_error_handling ⟨false, true, false, false, false, "img"⟩ ⟨⟨"no"⟩⟩
      ⟨false, false, true, 0⟩ ⟨false⟩
      ⟨none, none, "cid", none, .closedAfterDone, none, .ok 0, .ok 0⟩
      (by decide) rfl rfl rfl rfl).2.2 rfl rfl rfl rfl rfl rfl rfl⟩

end Docker
